import Mathlib

/-!
Verification of the Dilemma iterated-prisoner's-dilemma engine.

The development shallowly embeds the two JavaScript source files:

* the Match/Tournament engine (`Match`, `setupMatchPlayer`, `getNextMove`,
  `playRound`, `Tournament`, `getMatch`, `getScore`), and
* the legacy driver (`Dilemma.play` and its `getNextMove`) in namespace
  `Legacy`.

Modelling conventions:

* A yielded JavaScript value is a `JSValue` (the moves are the strings
  "COOPERATE" and "DEFECT"; strategies may yield arbitrary other values).
* A generator (strategy instance) is deterministic JavaScript code, so its
  observable behaviour is a function of the sequence of inputs it has been
  resumed with: `GenFun := List (Option JSValue) → GenStep`, where the list
  holds every `next`-argument received so far (including the current one;
  `none` models resuming with `undefined`, i.e. no input) and `GenStep` says
  whether that resume yields a value, returns without yielding, or throws.
  A match state carries the input histories `hist1`/`hist2` of its two
  generators as the explicit generator state.
* A strategy factory (`player1`/`player2` of the `Match` constructor) either
  produces a generator or throws: `Factory`.
* `playRound` returns a `PRResult`: `threw e m` models a synchronous
  JavaScript `throw` (the state is returned unchanged alongside it),
  `rejected e m` models the returned Promise rejecting (an exception escaped
  the executor after the state had been partially mutated), and
  `resolved m` models the Promise resolving with the updated match.
* JavaScript numbers that hold scores, round counters and limits are
  naturals (all the arithmetic on them is non-negative addition);
  the index arguments of `Tournament.getMatch` are rationals so that the
  source's `Math.floor(i) !== i` integrality test is represented.
* Console logging (`console.log`, `console.error`) is host output and is
  dropped from the embedding.  `match._logError`, however, is a method of
  the program's own Match object that is defined nowhere in the
  repository: calling it throws a TypeError.  The embedding therefore
  makes both `getNextMove` call sites of `_logError` throw
  (`JSError.typeError`), which makes the `return undefined` statements
  after them, and the forfeit branch of `playRound` that would consume an
  undefined move, dead code — as they are in the source.
-/

namespace Dilemma

/-- A JavaScript value as far as the engine can observe one: the move
strings, plus other primitive values a misbehaving strategy might yield. -/
inductive JSValue where
  | str (s : String)
  | num (n : Int)
  | boolV (b : Bool)
  deriving DecidableEq, Repr

/-- `var COOPERATE = "COOPERATE"` from the source. -/
def COOPERATE : JSValue := JSValue.str "COOPERATE"

/-- `var DEFECT = "DEFECT"` from the source. -/
def DEFECT : JSValue := JSValue.str "DEFECT"

/-- Outcome of resuming a generator once: it yields a value, returns
without yielding (`result.done` true), or throws. -/
inductive GenStep where
  | yields (v : JSValue)
  | ret
  | throws
  deriving DecidableEq, Repr

/-- A deterministic generator, observed through `next`: its step is a
function of the full sequence of inputs it has received so far (the last
list entry is the argument of the current resume; `none` = no input). -/
def GenFun : Type := List (Option JSValue) → GenStep

/-- A strategy factory: calling it either returns a fresh generator or
throws. -/
inductive Factory where
  | ok (gen : GenFun)
  | throws

/-- Whether a factory throws when invoked. -/
def Factory.isThrows : Factory → Bool
  | Factory.throws => true
  | Factory.ok _ => false

instance : Inhabited Factory := ⟨Factory.throws⟩

/-- The move-validity test of both `getNextMove` functions:
`move !== COOPERATE && move !== DEFECT` negated. -/
def isMove (v : JSValue) : Bool :=
  v == COOPERATE || v == DEFECT

/-- The move a single resume produces, `none` when the generator returned
without yielding or yielded an illegal value (the two conditions
`getNextMove` maps to `undefined`). A throwing step has no move. -/
def stepMove : GenStep → Option JSValue
  | GenStep.yields v => if isMove v then some v else none
  | GenStep.ret => none
  | GenStep.throws => none

/-- `goodGuyGreg` from the source: always yields COOPERATE. -/
def goodGuyGreg : GenFun := fun _ => GenStep.yields COOPERATE

/-- `scumbagSteve` from the source: always yields DEFECT. -/
def scumbagSteve : GenFun := fun _ => GenStep.yields DEFECT

/-- `HighExpectationsAsianFather` from the source: yields COOPERATE while
every input received after the (discarded) first one is COOPERATE, and
DEFECT forever once any of them was not. -/
def HighExpectationsAsianFather : GenFun := fun inputs =>
  if (inputs.drop 1).all (fun a => a == some COOPERATE) then GenStep.yields COOPERATE
  else GenStep.yields DEFECT

/-- A strategy instance that immediately returns without yielding. -/
def returnsGen : GenFun := fun _ => GenStep.ret

/-- A strategy instance that yields an illegal (non-Move) value. -/
def illegalGen : GenFun := fun _ => GenStep.yields (JSValue.num 42)

/-- A strategy instance whose every resume throws. -/
def throwsGen : GenFun := fun _ => GenStep.throws

/-- The three `Match` status constants. -/
inductive Status where
  | paused
  | running
  | done
  deriving DecidableEq, Repr

/-- The fields of a `Match` object.  `g1`/`g2` are `this._g1`/`this._g2`
(absent when `setupMatchPlayer` failed or was skipped); `hist1`/`hist2`
are the generators' input histories (the explicit generator state of the
embedding).  `lastScore1`/`lastScore2` are initialized to undefined and, as
in the source, never written again; `playRound` writes `scoreChange1`/
`scoreChange2` and `prevMove1`/`prevMove2` instead, while reading
`lastMove1`/`lastMove2`, which are also never updated after construction. -/
structure MatchState where
  round : Nat
  roundLimit : Nat
  score1 : Nat
  score2 : Nat
  lastMove1 : Option JSValue
  lastMove2 : Option JSValue
  lastScore1 : Option Nat
  lastScore2 : Option Nat
  prevMove1 : Option JSValue
  prevMove2 : Option JSValue
  scoreChange1 : Option Nat
  scoreChange2 : Option Nat
  status : Status
  g1 : Option GenFun
  g2 : Option GenFun
  hist1 : List (Option JSValue)
  hist2 : List (Option JSValue)

/-- The field initializations at the top of the `Match` constructor
(before `setupMatchPlayer` runs). -/
def initMatch (rounds : Nat) : MatchState :=
  { round := 0
    roundLimit := rounds
    score1 := 0
    score2 := 0
    lastMove1 := none
    lastMove2 := none
    lastScore1 := none
    lastScore2 := none
    prevMove1 := none
    prevMove2 := none
    scoreChange1 := none
    scoreChange2 := none
    status := Status.paused
    g1 := none
    g2 := none
    hist1 := []
    hist2 := [] }

instance : Inhabited MatchState := ⟨initMatch 0⟩

/-- The `Match` constructor: `setupMatchPlayer(this, 1, player1) &&
setupMatchPlayer(this, 2, player2)`.  A throwing factory forfeits: status
becomes done and the *other* player's score is set to `roundLimit * 5`;
the `&&` short-circuit means `player2` is never invoked when `player1`
throws.  No exception escapes the constructor. -/
def mkMatch (player1 player2 : Factory) (rounds : Nat) : MatchState :=
  match player1 with
  | Factory.throws =>
      { initMatch rounds with status := Status.done, score2 := rounds * 5 }
  | Factory.ok gen1 =>
      match player2 with
      | Factory.throws =>
          { initMatch rounds with
            g1 := some gen1
            status := Status.done
            score1 := rounds * 5 }
      | Factory.ok gen2 =>
          { initMatch rounds with g1 := some gen1, g2 := some gen2 }

/-- The error conditions `playRound` can signal. -/
inductive JSError where
  | alreadyRunning
  | alreadyDone
  | typeError
  | stratExc
  deriving DecidableEq, Repr

/-- Result of one `playRound` call: a synchronous throw (state returned
unchanged), a rejected Promise (the state as mutated before the exception
escaped the executor), or a resolved Promise with the updated state. -/
inductive PRResult where
  | threw (e : JSError) (m : MatchState)
  | rejected (e : JSError) (m : MatchState)
  | resolved (m : MatchState)

/-- The Match engine's `getNextMove(match, name, gen, arg)`: resume `gen`
with `arg`.  A throw from `gen.next` escapes (`JSError.stratExc`).  On a
generator that returns without yielding, or yields a non-Move value, the
source calls `match._logError(new Error(...))` — but `_logError` is
defined nowhere in the repository, so that call itself throws a TypeError
(`JSError.typeError`) and the `return undefined` after it is dead code.
Only a legal move is ever returned (the `Option` in the result type
mirrors the source's declared-but-unreachable `undefined` returns). -/
def getNextMove (gen : GenFun) (hist : List (Option JSValue))
    (arg : Option JSValue) : Except JSError (Option JSValue) :=
  match gen (hist ++ [arg]) with
  | GenStep.throws => Except.error JSError.stratExc
  | GenStep.ret => Except.error JSError.typeError
  | GenStep.yields v =>
      if isMove v then Except.ok (some v) else Except.error JSError.typeError

/-- The payoff matrix as inlined in `playRound` (and, identically, in the
legacy `play`): branch on `move1 === COOPERATE`, then `move2 === COOPERATE`. -/
def evalRound (move1 move2 : JSValue) : Nat × Nat :=
  if move1 = COOPERATE then
    if move2 = COOPERATE then (3, 3) else (0, 5)
  else
    if move2 = COOPERATE then (5, 0) else (1, 1)

/-- The forfeit score delta:
`(move === undefined) ? 0 : 5 * (roundLimit - round)`. -/
def forfeitDelta (mv : Option JSValue) (rl k : Nat) : Nat :=
  match mv with
  | none => 0
  | some _ => 5 * (rl - k)

/-- Both generators consume their resume argument: the histories grow by
`lastMove2` (for generator 1) and `lastMove1` (for generator 2). -/
def withHists (mr : MatchState) : MatchState :=
  { mr with hist1 := mr.hist1 ++ [mr.lastMove2],
            hist2 := mr.hist2 ++ [mr.lastMove1] }

/-- The Promise-executor body of `playRound`, run on the state that already
has `status = running`.  Resumes generator 1 with `lastMove2`, then
generator 2 with `lastMove1`; an exception escaping `getNextMove` (the
strategy's own, or the TypeError from the undefined `match._logError`)
rejects the Promise — and when generator 1's resume fails, generator 2 is
never resumed.  The undefined-move forfeit branch is kept as in the
source, where it is dead code (`getNextMove` never returns an undefined
move; it throws first).  Otherwise the payoff matrix is applied, the moves
are remembered in `prevMove1`/`prevMove2`, the round counter advances and
the status becomes done or paused. -/
def playRoundBody (mr : MatchState) : PRResult :=
  match mr.g1, mr.g2 with
  | some gen1, some gen2 =>
      match getNextMove gen1 mr.hist1 mr.lastMove2 with
      | Except.error e =>
          PRResult.rejected e { mr with hist1 := mr.hist1 ++ [mr.lastMove2] }
      | Except.ok move1 =>
          match getNextMove gen2 mr.hist2 mr.lastMove1 with
          | Except.error e => PRResult.rejected e (withHists mr)
          | Except.ok move2 =>
              match move1, move2 with
              | some v1, some v2 =>
                  PRResult.resolved
                    { withHists mr with
                      scoreChange1 := some (evalRound v1 v2).1
                      scoreChange2 := some (evalRound v1 v2).2
                      score1 := mr.score1 + (evalRound v1 v2).1
                      score2 := mr.score2 + (evalRound v1 v2).2
                      prevMove1 := some v1
                      prevMove2 := some v2
                      round := mr.round + 1
                      status := if mr.round + 1 ≥ mr.roundLimit then Status.done
                                else Status.paused }
              | mv1, mv2 =>
                  PRResult.resolved
                    { withHists mr with
                      scoreChange1 := some (forfeitDelta mv1 mr.roundLimit mr.round)
                      scoreChange2 := some (forfeitDelta mv2 mr.roundLimit mr.round)
                      score1 := mr.score1 + forfeitDelta mv1 mr.roundLimit mr.round
                      score2 := mr.score2 + forfeitDelta mv2 mr.roundLimit mr.round
                      status := Status.done }
  | _, _ => PRResult.rejected JSError.typeError mr

/-- `Match.prototype.playRound`: reject re-entry (`AlreadyRunning`) and
post-completion calls (`AlreadyDone`) with a synchronous throw, otherwise
set status to running and run the executor body. -/
def playRound (m : MatchState) : PRResult :=
  if m.status = Status.running then PRResult.threw JSError.alreadyRunning m
  else if m.status = Status.done then PRResult.threw JSError.alreadyDone m
  else playRoundBody { m with status := Status.running }

/-- Iterate `playRound`, keeping whatever state each call leaves behind
(whether it resolved, rejected, or threw). -/
def afterRounds (m : MatchState) : Nat → MatchState
  | 0 => m
  | n + 1 =>
      match playRound (afterRounds m n) with
      | PRResult.threw _ m' => m'
      | PRResult.rejected _ m' => m'
      | PRResult.resolved m' => m'

/-- Whether the next `playRound` from this state would take the forfeit
branch: both `getNextMove` calls succeed and at least one of the produced
moves is undefined.  With the faithful `getNextMove` (which never returns
an undefined move — it throws first) this condition is never satisfied,
mirroring the fact that the source's forfeit branch is dead code. -/
def roundForfeit (m : MatchState) : Bool :=
  match m.g1, m.g2 with
  | some gen1, some gen2 =>
      match getNextMove gen1 m.hist1 m.lastMove2,
            getNextMove gen2 m.hist2 m.lastMove1 with
      | Except.ok mv1, Except.ok mv2 => mv1.isNone || mv2.isNone
      | _, _ => false
  | _, _ => false

/-- States reachable from `Match(p1, p2, r)` by any sequence of
`playRound` calls, together with a ghost flag recording whether a forfeit
has occurred (at construction or in a round).  Calls that throw
synchronously leave the state unchanged and need no constructor. -/
inductive Reach (p1 p2 : Factory) (r : Nat) : MatchState → Bool → Prop where
  | base : Reach p1 p2 r (mkMatch p1 p2 r) (p1.isThrows || p2.isThrows)
  | step (m : MatchState) (f : Bool) (m' : MatchState) :
      Reach p1 p2 r m f → playRound m = PRResult.resolved m' →
      Reach p1 p2 r m' (f || roundForfeit m)
  | stepRej (m : MatchState) (f : Bool) (e : JSError) (m' : MatchState) :
      Reach p1 p2 r m f → playRound m = PRResult.rejected e m' →
      Reach p1 p2 r m' f

/-- The fields of a `Tournament` object: the roster, the lower-triangular
`matches` grid (row `i` holds the matches against players `j < i`), and the
`scores` array the constructor fills with zeroes (and nothing ever
updates). -/
structure TournamentState where
  players : List Factory
  matchesArr : List (List MatchState)
  scores : List Nat

/-- The `Tournament` constructor: for every `i < N` build row `i` with one
`new Match(players[i], players[j], rounds)` per `j < i`, and zero the
`scores` entry. -/
def mkTournament (players : List Factory) (rounds : Nat) : TournamentState :=
  { players := players
    matchesArr := (List.range players.length).map (fun i =>
      (List.range i).map (fun j =>
        mkMatch (players.getD i Factory.throws) (players.getD j Factory.throws)
          rounds))
    scores := (List.range players.length).map (fun _ => 0) }

/-- The dynamic type of the `score` accumulator in `Tournament.getScore`:
it starts as the number 0 and, as soon as a Match object is added to it,
degenerates into a string (JavaScript `+` on an object concatenates its
default string conversion). -/
inductive JSSum where
  | num (n : Nat)
  | str (s : String)
  deriving DecidableEq, Repr

/-- One `score += this.matches[...][...]` step: adding a Match object to a
JavaScript number or string concatenates `"[object Object]"` (the object's
default string conversion) onto the accumulator's string conversion. -/
def jsAddMatchObject : JSSum → JSSum
  | JSSum.num n => JSSum.str (toString n ++ "[object Object]")
  | JSSum.str s => JSSum.str (s ++ "[object Object]")

/-- `Tournament.prototype.getScore` as written in the source: start from
the number 0 and `+=` the Match *objects* `matches[i][j]` (for `j < i`) and
`matches[j][i]` (for `i < j < N`) — not any score field of theirs. -/
def getScore (t : TournamentState) (i : Nat) : JSSum :=
  let firstLoop := (List.range i).foldl (fun acc _ => jsAddMatchObject acc)
    (JSSum.num 0)
  (List.range (t.players.length - (i + 1))).foldl
    (fun acc _ => jsAddMatchObject acc) firstLoop

/-- Modelled from the spec: the intended `getScore(i)` (the source sums
Match objects instead of score fields, which the spec flags as a defect):
sum player `i`'s score contribution over every Match involving `i` —
`score1` of `matches[i][j]` for `j < i` (where `i` is the higher index of
the pair, hence player 1), plus `score2` of `matches[j][i]` for
`i < j < N` (where `i` is the lower index, hence player 2). -/
def getScoreSpec (t : TournamentState) (i : Nat) : Nat :=
  ((List.range i).map (fun j =>
    ((t.matchesArr.getD i []).getD j default).score1)).sum +
  ((List.range (t.players.length - (i + 1))).map (fun k =>
    ((t.matchesArr.getD (i + 1 + k) []).getD i default).score2)).sum

/-- The error conditions of `Tournament.getMatch`: the explicit
`invalid argument` Error, and the TypeError that reading a property of
`undefined` (a missing row) raises. -/
inductive TError where
  | invalidArgument
  | typeError
  deriving DecidableEq, Repr

/-- `Tournament.prototype.getMatch(i1, i2)`.  The source validates
`Math.floor(i1) !== i1 || i1 >= this.players.length ||
Math.floor(i2) !== i2 || i2 >= i1` and throws `invalid argument` when the
disjunction holds; it never checks that `i2` (or `i1`) is non-negative.
On a negative `i1` the row read `this.matches[i1]` yields `undefined` and
the element read on it throws a TypeError; on a negative `i2` the element
read on the (existing) row just yields `undefined` (`Except.ok none`). -/
def getMatch (t : TournamentState) (i1 i2 : ℚ) :
    Except TError (Option MatchState) :=
  if ¬((⌊i1⌋ : ℚ) = i1) ∨ (t.players.length : ℚ) ≤ i1 ∨
      ¬((⌊i2⌋ : ℚ) = i2) ∨ i1 ≤ i2 then
    Except.error TError.invalidArgument
  else if ⌊i1⌋ < 0 then Except.error TError.typeError
  else if ⌊i2⌋ < 0 then Except.ok none
  else Except.ok ((t.matchesArr[⌊i1⌋.toNat]?).bind (fun row => row[⌊i2⌋.toNat]?))

namespace Legacy

/-- The legacy driver's `getNextMove(name, gen, arg)` from `dilemma.js`:
unlike the Match engine's, it *throws* on a generator that returns without
yielding or yields an illegal value (and a throw from `gen.next` itself
also escapes). -/
def getNextMove (name : String) (gen : GenFun) (hist : List (Option JSValue))
    (arg : Option JSValue) : Except String JSValue :=
  match gen (hist ++ [arg]) with
  | GenStep.throws => Except.error ("Player " ++ name ++ " raised")
  | GenStep.ret => Except.error ("Player " ++ name ++ " returned without yielding!")
  | GenStep.yields v =>
      if isMove v then Except.ok v
      else Except.error ("Player " ++ name ++
        " made an illegal move (please yield COOPERATE or DEFECT)")

/-- The loop state of the legacy `play`: generator histories, each
player's previous move (`undefined` before round 0), and the scores. -/
structure PlayState where
  hist1 : List (Option JSValue)
  hist2 : List (Option JSValue)
  prev1 : Option JSValue
  prev2 : Option JSValue
  score1 : Nat
  score2 : Nat

/-- The `for (var i = 0; i < rounds; i++)` body of the legacy `play`:
resume each generator with the other player's previous move, score via the
payoff matrix, and remember the moves in `prev1`/`prev2` for the next
round. -/
def playLoop (gen1 gen2 : GenFun) : Nat → PlayState → Except String (Nat × Nat)
  | 0, s => Except.ok (s.score1, s.score2)
  | n + 1, s => do
      let move1 ← getNextMove "1" gen1 s.hist1 s.prev2
      let move2 ← getNextMove "2" gen2 s.hist2 s.prev1
      playLoop gen1 gen2 n
        { hist1 := s.hist1 ++ [s.prev2]
          hist2 := s.hist2 ++ [s.prev1]
          prev1 := some move1
          prev2 := some move2
          score1 := s.score1 + (evalRound move1 move2).1
          score2 := s.score2 + (evalRound move1 move2).2 }

/-- The legacy `Dilemma.play(player1, player2, rounds)` from `dilemma.js`:
construct both generators (a throwing factory's exception escapes — there
is no try/catch here) and run the round loop, returning the final score
pair. -/
def play (player1 player2 : Factory) (rounds : Nat) : Except String (Nat × Nat) :=
  match player1, player2 with
  | Factory.ok gen1, Factory.ok gen2 =>
      playLoop gen1 gen2 rounds
        { hist1 := [], hist2 := [], prev1 := none, prev2 := none,
          score1 := 0, score2 := 0 }
  | _, _ => Except.error "strategy construction raised"

end Legacy

/-! ## Helper lemmas -/

theorem isMove_iff {v : JSValue} : isMove v = true ↔ v = COOPERATE ∨ v = DEFECT := by
  simp [isMove]

theorem stepMove_eq_some {s : GenStep} {v : JSValue} (h : stepMove s = some v) :
    s = GenStep.yields v ∧ isMove v = true := by
  cases s with
  | yields w =>
      by_cases hw : isMove w
      · simp only [stepMove, if_pos hw, Option.some.injEq] at h
        subst h
        exact ⟨rfl, hw⟩
      · simp [stepMove, hw] at h
  | ret => simp [stepMove] at h
  | throws => simp [stepMove] at h

theorem getNextMove_ok_of_valid {gen : GenFun} {hist : List (Option JSValue)}
    {arg : Option JSValue} {v : JSValue}
    (h : stepMove (gen (hist ++ [arg])) = some v) :
    getNextMove gen hist arg = Except.ok (some v) := by
  obtain ⟨hy, hm⟩ := stepMove_eq_some h
  simp [getNextMove, hy, hm]

theorem getNextMove_error_of_none {gen : GenFun} {hist : List (Option JSValue)}
    {arg : Option JSValue} (h : stepMove (gen (hist ++ [arg])) = none) :
    ∃ e, getNextMove gen hist arg = Except.error e := by
  cases hs : gen (hist ++ [arg]) with
  | yields w =>
      rw [hs] at h
      by_cases hw : isMove w
      · simp [stepMove, hw] at h
      · exact ⟨JSError.typeError, by simp [getNextMove, hs, hw]⟩
  | ret => exact ⟨JSError.typeError, by simp [getNextMove, hs]⟩
  | throws => exact ⟨JSError.stratExc, by simp [getNextMove, hs]⟩

theorem playRound_paused (m : MatchState) (h : m.status = Status.paused) :
    playRound m = playRoundBody { m with status := Status.running } := by
  unfold playRound
  rw [h]
  rfl

theorem playRoundBody_rejected_spec {mr : MatchState} {e : JSError}
    {m' : MatchState} (h : playRoundBody mr = PRResult.rejected e m') :
    m'.status = mr.status ∧ m'.round = mr.round ∧
    m'.roundLimit = mr.roundLimit ∧ m'.score1 = mr.score1 ∧
    m'.score2 = mr.score2 := by
  unfold playRoundBody at h
  split at h
  · split at h
    · cases h
      exact ⟨rfl, rfl, rfl, rfl, rfl⟩
    · split at h
      · cases h
        exact ⟨rfl, rfl, rfl, rfl, rfl⟩
      · split at h
        · exact PRResult.noConfusion h
        · exact PRResult.noConfusion h
  · cases h
    exact ⟨rfl, rfl, rfl, rfl, rfl⟩

theorem playRoundBody_resolved_spec {mr : MatchState} {m' : MatchState}
    (h : playRoundBody mr = PRResult.resolved m') :
    m'.roundLimit = mr.roundLimit ∧ mr.score1 ≤ m'.score1 ∧
    mr.score2 ≤ m'.score2 ∧
    ((roundForfeit mr = true ∧ m'.round = mr.round ∧
        m'.status = Status.done) ∨
     (roundForfeit mr = false ∧ m'.round = mr.round + 1 ∧
        m'.status = (if mr.round + 1 ≥ mr.roundLimit then Status.done
          else Status.paused))) := by
  unfold playRoundBody at h
  split at h
  next gen1 gen2 hg1 hg2 =>
    split at h
    next => exact PRResult.noConfusion h
    next move1 hm1 =>
      split at h
      next => exact PRResult.noConfusion h
      next move2 hm2 =>
        split at h
        next v1 v2 =>
          cases h
          refine ⟨rfl, Nat.le_add_right _ _, Nat.le_add_right _ _, Or.inr ⟨?_, rfl, rfl⟩⟩
          simp [roundForfeit, hg1, hg2, hm1, hm2]
        next hne =>
          cases h
          refine ⟨rfl, Nat.le_add_right _ _, Nat.le_add_right _ _, Or.inl ⟨?_, rfl, rfl⟩⟩
          simp only [roundForfeit, hg1, hg2, hm1, hm2]
          cases move1 <;> cases move2 <;> simp_all
  next => exact PRResult.noConfusion h

theorem playRound_resolved_spec {m m' : MatchState}
    (h : playRound m = PRResult.resolved m') :
    m.status = Status.paused ∧ m'.roundLimit = m.roundLimit ∧
    m.score1 ≤ m'.score1 ∧ m.score2 ≤ m'.score2 ∧
    ((roundForfeit m = true ∧ m'.round = m.round ∧
        m'.status = Status.done) ∨
     (roundForfeit m = false ∧ m'.round = m.round + 1 ∧
        m'.status = (if m.round + 1 ≥ m.roundLimit then Status.done
          else Status.paused))) := by
  have hst : m.status = Status.paused := by
    unfold playRound at h
    by_cases h1 : m.status = Status.running
    · rw [if_pos h1] at h
      exact PRResult.noConfusion h
    · rw [if_neg h1] at h
      by_cases h2 : m.status = Status.done
      · rw [if_pos h2] at h
        exact PRResult.noConfusion h
      · cases hs : m.status
        · rfl
        · exact absurd hs h1
        · exact absurd hs h2
  rw [playRound_paused m hst] at h
  exact ⟨hst, (playRoundBody_resolved_spec h).1,
    (playRoundBody_resolved_spec h).2.1, (playRoundBody_resolved_spec h).2.2.1,
    (playRoundBody_resolved_spec h).2.2.2⟩

theorem playRound_rejected_spec {m : MatchState} {e : JSError}
    {m' : MatchState} (h : playRound m = PRResult.rejected e m') :
    m.status = Status.paused ∧ m'.status = Status.running ∧
    m'.round = m.round ∧ m'.roundLimit = m.roundLimit ∧
    m'.score1 = m.score1 ∧ m'.score2 = m.score2 := by
  have hst : m.status = Status.paused := by
    unfold playRound at h
    by_cases h1 : m.status = Status.running
    · rw [if_pos h1] at h
      exact PRResult.noConfusion h
    · rw [if_neg h1] at h
      by_cases h2 : m.status = Status.done
      · rw [if_pos h2] at h
        exact PRResult.noConfusion h
      · cases hs : m.status
        · rfl
        · exact absurd hs h1
        · exact absurd hs h2
  rw [playRound_paused m hst] at h
  exact ⟨hst, (playRoundBody_rejected_spec h).1,
    (playRoundBody_rejected_spec h).2.1, (playRoundBody_rejected_spec h).2.2.1,
    (playRoundBody_rejected_spec h).2.2.2.1,
    (playRoundBody_rejected_spec h).2.2.2.2⟩

theorem playRound_threw_spec {m : MatchState} {e : JSError} {m' : MatchState}
    (h : playRound m = PRResult.threw e m') :
    m' = m ∧ (m.status = Status.running ∨ m.status = Status.done) := by
  unfold playRound at h
  by_cases h1 : m.status = Status.running
  · rw [if_pos h1] at h
    cases h
    exact ⟨rfl, Or.inl h1⟩
  · rw [if_neg h1] at h
    by_cases h2 : m.status = Status.done
    · rw [if_pos h2] at h
      cases h
      exact ⟨rfl, Or.inr h2⟩
    · rw [if_neg h2] at h
      exfalso
      have hne : playRoundBody { m with status := Status.running } ≠
          PRResult.threw e m' := by
        unfold playRoundBody
        split
        · split
          · simp
          · split
            · simp
            · split <;> simp
        · simp
      exact hne h

theorem reach_inv {p1 p2 : Factory} {r : Nat} {m : MatchState} {f : Bool}
    (hr : 0 < r) (h : Reach p1 p2 r m f) :
    m.roundLimit = r ∧ m.round ≤ r ∧
    (m.status = Status.done ↔ (m.round = r ∨ f = true)) := by
  induction h with
  | base =>
      cases p1 <;> cases p2 <;>
        (simp [mkMatch, initMatch, Factory.isThrows]; try omega)
  | step mm ff mm' hreach hstep ih =>
      obtain ⟨hrl, hle, hiff⟩ := ih
      obtain ⟨hst, hrl', hsc1, hsc2, hcase⟩ := playRound_resolved_spec hstep
      have hnotdone : ¬(mm.round = r ∨ ff = true) := by
        intro hor
        have hdone := hiff.mpr hor
        rw [hst] at hdone
        exact Status.noConfusion hdone
      have hfne : mm.round ≠ r := fun he => hnotdone (Or.inl he)
      have hff : ff = false := by
        cases hb : ff
        · rfl
        · exact absurd (Or.inr hb) hnotdone
      rcases hcase with ⟨hforf, hru, hsd⟩ | ⟨hforf, hru, hsd⟩
      · refine ⟨by rw [hrl', hrl], by omega, ?_⟩
        rw [hsd, hforf, hff]
        simp
      · refine ⟨by rw [hrl', hrl], by omega, ?_⟩
        rw [hsd, hru, hforf, hff, hrl]
        by_cases hge : mm.round + 1 ≥ r
        · rw [if_pos hge]
          simp
          omega
        · rw [if_neg hge]
          simp
          omega
  | stepRej mm ff ee mm' hreach hstep ih =>
      obtain ⟨hrl, hle, hiff⟩ := ih
      obtain ⟨hst, hst', hru, hrl', hsc1, hsc2⟩ := playRound_rejected_spec hstep
      have hnotdone : ¬(mm.round = r ∨ ff = true) := by
        intro hor
        have hdone := hiff.mpr hor
        rw [hst] at hdone
        exact Status.noConfusion hdone
      refine ⟨by rw [hrl', hrl], by omega, ?_⟩
      rw [hst', hru]
      constructor
      · intro hc
        exact Status.noConfusion hc
      · intro hor
        exact absurd hor hnotdone

/-! ## Claim theorems (with supporting lemmas) -/

/-- C6: For every pair of valid moves, a round is scored exactly by the
fixed payoff table: (COOPERATE, COOPERATE) ↦ (3, 3);
(COOPERATE, DEFECT) ↦ (0, 5); (DEFECT, COOPERATE) ↦ (5, 0);
(DEFECT, DEFECT) ↦ (1, 1).  `evalRound` is the payoff evaluation that
`playRound` (and the legacy `play`) apply to every pair of valid moves;
it is a pure total function, with no side effects and no failure modes. -/
theorem C6_payoff_table :
    evalRound COOPERATE COOPERATE = (3, 3) ∧
    evalRound COOPERATE DEFECT = (0, 5) ∧
    evalRound DEFECT COOPERATE = (5, 0) ∧
    evalRound DEFECT DEFECT = (1, 1) := by
  decide

/-- C7 counterexample: at the valid move pair (COOPERATE, DEFECT) — where
the players do not both defect — the deltas are (0, 5) and sum to 5, not
the 6 the claim asserts. -/
theorem C7_sum_counterexample :
    ¬((evalRound COOPERATE DEFECT).1 + (evalRound COOPERATE DEFECT).2 =
      if COOPERATE = DEFECT ∧ DEFECT = DEFECT then 2 else 6) := by
  decide

/-- C7 amended: for every pair of valid moves the two per-round deltas sum
to 2 when both defect, 6 when both cooperate, and 5 when exactly one
defects. -/
theorem C7_delta_sum_amended (v1 v2 : JSValue) (h1 : isMove v1 = true)
    (h2 : isMove v2 = true) :
    (evalRound v1 v2).1 + (evalRound v1 v2).2 =
      if v1 = DEFECT ∧ v2 = DEFECT then 2 else if v1 = v2 then 6 else 5 := by
  rcases isMove_iff.mp h1 with rfl | rfl <;>
    rcases isMove_iff.mp h2 with rfl | rfl <;> decide

/-- Witness for the amended C7: instantiated at (DEFECT, COOPERATE),
where the sum is 5. -/
theorem C7_delta_sum_amended_witness :
    (evalRound DEFECT COOPERATE).1 + (evalRound DEFECT COOPERATE).2 =
      if DEFECT = DEFECT ∧ COOPERATE = DEFECT then 2
      else if DEFECT = COOPERATE then 6 else 5 :=
  C7_delta_sum_amended DEFECT COOPERATE (by decide) (by decide)

/-- C4: a factory that raises during construction makes the Match
immediately done, with the other player's cumulative score `roundLimit * 5`
and the failing side's score 0, readable with zero round-advances
(`mkMatch` is total, so the failure never propagates to the caller). -/
theorem C4_construction_forfeit (p2 : Factory) (gen1 : GenFun) (r : Nat) :
    ((mkMatch Factory.throws p2 r).status = Status.done ∧
      (mkMatch Factory.throws p2 r).score2 = r * 5 ∧
      (mkMatch Factory.throws p2 r).score1 = 0 ∧
      (mkMatch Factory.throws p2 r).round = 0) ∧
    ((mkMatch (Factory.ok gen1) Factory.throws r).status = Status.done ∧
      (mkMatch (Factory.ok gen1) Factory.throws r).score1 = r * 5 ∧
      (mkMatch (Factory.ok gen1) Factory.throws r).score2 = 0 ∧
      (mkMatch (Factory.ok gen1) Factory.throws r).round = 0) :=
  ⟨⟨rfl, rfl, rfl, rfl⟩, ⟨rfl, rfl, rfl, rfl⟩⟩

/-- C10: when player 1's factory throws, player 2's factory is never
invoked: the constructed Match does not depend on `p2` at all (first
conjunct, definitional), its generator slot `_g2` stays unset, and even
when both factories would throw the result is the player-1 forfeit
(score2 = roundLimit * 5, score1 = 0, done). -/
theorem C10_p2_never_invoked (p2 p2' : Factory) (r : Nat) :
    mkMatch Factory.throws p2 r = mkMatch Factory.throws p2' r ∧
    (mkMatch Factory.throws p2 r).g2 = none ∧
    (mkMatch Factory.throws Factory.throws r).score2 = r * 5 ∧
    (mkMatch Factory.throws Factory.throws r).score1 = 0 ∧
    (mkMatch Factory.throws Factory.throws r).status = Status.done :=
  ⟨rfl, rfl, rfl, rfl, rfl⟩

/-- C2 (code bug): on `Tournament([greg, greg], 5)`, the source's
`getScore(1)` returns the JavaScript *string* "0[object Object]" — it sums
the Match objects themselves — and in particular no number at all, while
the per-player sum of score fields the claim describes is the number 0. -/
theorem C2_getScore_sums_objects :
    getScore (mkTournament [Factory.ok goodGuyGreg, Factory.ok goodGuyGreg] 5) 1
      = JSSum.str "0[object Object]" ∧
    getScoreSpec (mkTournament [Factory.ok goodGuyGreg, Factory.ok goodGuyGreg] 5) 1
      = 0 :=
  ⟨rfl, rfl⟩

/-- C1 (code bug): in `Match(HighExpectationsAsianFather, goodGuyGreg, 2)`,
after two round-advances generator 1's input history is `[none, none]`:
the round-1 resume again passed no input (`lastMove2` is never written;
`playRound` stores the moves into `prevMove1`/`prevMove2` instead), even
though the opponent's round-0 move was COOPERATE (`prevMove2` shows it).
Consequently the conditional cooperator defects against an
always-cooperator and the match ends 8–3, whereas the legacy `play` driver
of `dilemma.js` — which does pass previous moves — ends the same pairing
at 6–6. -/
theorem C1_resume_inputs_bug :
    (afterRounds (mkMatch (Factory.ok HighExpectationsAsianFather)
        (Factory.ok goodGuyGreg) 2) 2).hist1 = [none, none] ∧
    (afterRounds (mkMatch (Factory.ok HighExpectationsAsianFather)
        (Factory.ok goodGuyGreg) 2) 2).prevMove2 = some COOPERATE ∧
    (afterRounds (mkMatch (Factory.ok HighExpectationsAsianFather)
        (Factory.ok goodGuyGreg) 2) 2).score1 = 8 ∧
    (afterRounds (mkMatch (Factory.ok HighExpectationsAsianFather)
        (Factory.ok goodGuyGreg) 2) 2).score2 = 3 ∧
    (afterRounds (mkMatch (Factory.ok HighExpectationsAsianFather)
        (Factory.ok goodGuyGreg) 2) 2).status = Status.done ∧
    Legacy.play (Factory.ok HighExpectationsAsianFather)
        (Factory.ok goodGuyGreg) 2 = Except.ok (6, 6) :=
  ⟨rfl, rfl, rfl, rfl, rfl, rfl⟩

/-- C8: for every Match built with a positive roundLimit and every state
reachable by round-advances (with ghost flag `f` recording whether a
forfeit has occurred), the round counter never exceeds `roundLimit`, the
status is done exactly when the round counter reached `roundLimit` or a
forfeit occurred, and each `playRound` outcome leaves both cumulative
scores non-decreasing (resolved adds non-negative deltas, rejected leaves
them unchanged, a synchronous throw leaves the whole state unchanged). -/
theorem C8_match_invariants {p1 p2 : Factory} {r : Nat} {m : MatchState}
    {f : Bool} (hr : 0 < r) (hreach : Reach p1 p2 r m f) :
    m.round ≤ m.roundLimit ∧
    (m.status = Status.done ↔ (m.round = m.roundLimit ∨ f = true)) ∧
    (∀ m', playRound m = PRResult.resolved m' →
      m.score1 ≤ m'.score1 ∧ m.score2 ≤ m'.score2) ∧
    (∀ e m', playRound m = PRResult.rejected e m' →
      m'.score1 = m.score1 ∧ m'.score2 = m.score2) ∧
    (∀ e m', playRound m = PRResult.threw e m' → m' = m) := by
  obtain ⟨hrl, hle, hiff⟩ := reach_inv hr hreach
  rw [hrl]
  exact ⟨hle, hiff,
    fun m' h => ⟨(playRound_resolved_spec h).2.2.1,
      (playRound_resolved_spec h).2.2.2.1⟩,
    fun e m' h => ⟨(playRound_rejected_spec h).2.2.2.2.1,
      (playRound_rejected_spec h).2.2.2.2.2⟩,
    fun e m' h => (playRound_threw_spec h).1⟩

/-- Witness for C8: the invariant instantiated at
`Match(goodGuyGreg, scumbagSteve, 1)` just after construction. -/
theorem C8_match_invariants_witness :
    (mkMatch (Factory.ok goodGuyGreg) (Factory.ok scumbagSteve) 1).round ≤
      (mkMatch (Factory.ok goodGuyGreg) (Factory.ok scumbagSteve) 1).roundLimit :=
  (C8_match_invariants (by decide) Reach.base).1

/-- C3 (code bug): the claim describes the source's own (dead) forfeit
branch, but the code cannot reach it: on a strategy that returns without
yielding (`Match(returnsGen, goodGuyGreg, 3)`) and on one that yields a
non-Move value (`Match(goodGuyGreg, illegalGen, 3)`), the first
round-advance calls `match._logError`, which is defined nowhere in the
repository, so a TypeError rejects the round's Promise: the match does
not end done with forfeit scoring — it is left stuck in `running`, with
scores and round counter untouched (and in the first case generator 2 is
never even resumed: its input history stays empty). -/
theorem C3_undefined_move_rejects_bug :
    (∃ m', playRound (mkMatch (Factory.ok returnsGen) (Factory.ok goodGuyGreg) 3)
        = PRResult.rejected JSError.typeError m' ∧
      m'.status = Status.running ∧ m'.round = 0 ∧
      m'.score1 = 0 ∧ m'.score2 = 0 ∧ m'.hist2 = []) ∧
    (∃ m', playRound (mkMatch (Factory.ok goodGuyGreg) (Factory.ok illegalGen) 3)
        = PRResult.rejected JSError.typeError m' ∧
      m'.status = Status.running ∧ m'.round = 0 ∧
      m'.score1 = 0 ∧ m'.score2 = 0) :=
  ⟨⟨_, rfl, rfl, rfl, rfl, rfl, rfl⟩, ⟨_, rfl, rfl, rfl, rfl, rfl⟩⟩

/-- C5 amended: no strategy misbehavior during a round-advance is
absorbed into scoring.  Whether a resumption raises, returns without
yielding, or produces a non-Move value (in the model: its `stepMove` is
undefined), `playRound` rejects the round's Promise with an exception —
the strategy's own, or the TypeError from calling the undefined
`match._logError` — so the failure reaches the caller, and the Match's
public state is left changed to `running` without a committed round
(scores and round counter unchanged), after which every further
round-advance fails with AlreadyRunning.  Only when both resumes produce
valid moves does the round-advance resolve and commit (part 1). -/
theorem C5_amended (m : MatchState) (gen1 gen2 : GenFun)
    (hst : m.status = Status.paused) (hg1 : m.g1 = some gen1)
    (hg2 : m.g2 = some gen2) :
    ((stepMove (gen1 (m.hist1 ++ [m.lastMove2])) ≠ none ∧
      stepMove (gen2 (m.hist2 ++ [m.lastMove1])) ≠ none) →
      ∃ m', playRound m = PRResult.resolved m') ∧
    ((stepMove (gen1 (m.hist1 ++ [m.lastMove2])) = none ∨
      stepMove (gen2 (m.hist2 ++ [m.lastMove1])) = none) →
      ∃ e m', playRound m = PRResult.rejected e m' ∧
        m'.status = Status.running ∧ m'.round = m.round ∧
        m'.score1 = m.score1 ∧ m'.score2 = m.score2) := by
  rw [playRound_paused m hst]
  unfold playRoundBody
  simp only [hg1, hg2]
  constructor
  · rintro ⟨hn1, hn2⟩
    obtain ⟨v1, hv1⟩ := Option.ne_none_iff_exists'.mp hn1
    obtain ⟨v2, hv2⟩ := Option.ne_none_iff_exists'.mp hn2
    rw [getNextMove_ok_of_valid hv1, getNextMove_ok_of_valid hv2]
    exact ⟨_, rfl⟩
  · intro hor
    by_cases hc1 : stepMove (gen1 (m.hist1 ++ [m.lastMove2])) = none
    · obtain ⟨e, he⟩ := getNextMove_error_of_none hc1
      rw [he]
      exact ⟨e, _, rfl, rfl, rfl, rfl, rfl⟩
    · have hc2 : stepMove (gen2 (m.hist2 ++ [m.lastMove1])) = none :=
        hor.resolve_left hc1
      obtain ⟨v1, hv1⟩ := Option.ne_none_iff_exists'.mp hc1
      obtain ⟨e, he⟩ := getNextMove_error_of_none hc2
      rw [getNextMove_ok_of_valid hv1, he]
      exact ⟨e, _, rfl, rfl, rfl, rfl, rfl⟩

/-- Witness for the amended C5: part 2 in
`Match(goodGuyGreg, throwsGen, 4)` — the first round-advance rejects and
leaves the match running with scores and round counter untouched. -/
theorem C5_amended_witness :
    ∃ e m', playRound (mkMatch (Factory.ok goodGuyGreg) (Factory.ok throwsGen) 4)
        = PRResult.rejected e m' ∧
      m'.status = Status.running ∧ m'.round = 0 ∧
      m'.score1 = 0 ∧ m'.score2 = 0 :=
  (C5_amended (mkMatch (Factory.ok goodGuyGreg) (Factory.ok throwsGen) 4)
    goodGuyGreg throwsGen rfl rfl rfl).2 (Or.inr rfl)

/-- C5 counterexample: a strategy whose resumption throws is *not*
absorbed into scoring: in `Match(throwsGen, goodGuyGreg, 3)` the first
`playRound` propagates the strategy's exception to the caller (the round's
Promise rejects), and it leaves the Match with `status = running` — a
public-state change without any committed round (scores and round counter
untouched), from which no further round-advance can ever succeed. -/
theorem C5_throwing_strategy_not_absorbed :
    ∃ m', playRound (mkMatch (Factory.ok throwsGen) (Factory.ok goodGuyGreg) 3)
        = PRResult.rejected JSError.stratExc m' ∧
      m'.status = Status.running ∧ m'.score1 = 0 ∧ m'.score2 = 0 ∧
      m'.round = 0 ∧ m'.roundLimit = 3 :=
  ⟨_, rfl, rfl, rfl, rfl, rfl, rfl⟩

/-- C9 counterexample: in a 2-player tournament, `getMatch(1, -1)` — a
negative, hence out-of-range, second index — does not signal
InvalidArgument: the validation (which checks no lower bound) passes and
the lookup returns no match (`undefined`), contradicting the claim that
every argument pair outside `0 ≤ j < i < N` signals InvalidArgument. -/
theorem C9_negative_index_counterexample :
    getMatch (mkTournament [Factory.ok goodGuyGreg, Factory.ok goodGuyGreg] 3)
        1 (-1) = Except.ok none ∧
    getMatch (mkTournament [Factory.ok goodGuyGreg, Factory.ok goodGuyGreg] 3)
        1 (-1) ≠ Except.error TError.invalidArgument := by
  have he : getMatch (mkTournament
      [Factory.ok goodGuyGreg, Factory.ok goodGuyGreg] 3) 1 (-1)
      = Except.ok none := rfl
  refine ⟨he, fun h => ?_⟩
  rw [he] at h
  exact Except.noConfusion h

/-- C9 amended: `getMatch(i, j)` returns the stored Match exactly on
integers `0 ≤ j < i < N` (part 1); non-integer arguments, `i ≥ N`, or
`j ≥ i` signal InvalidArgument (part 2); but no lower bound is checked, so
a negative integer `j` with `j < i < N` passes validation and yields no
match without any error (part 3), and a negative integer `i` (with
`j < i`) fails with a TypeError from the missing-row access, not
InvalidArgument (part 4). -/
theorem C9_getMatch_amended :
    (∀ (players : List Factory) (rounds : Nat) (i j : Nat),
      j < i → i < players.length →
      getMatch (mkTournament players rounds) (i : ℚ) (j : ℚ)
        = Except.ok (some (mkMatch (players.getD i Factory.throws)
            (players.getD j Factory.throws) rounds))) ∧
    (∀ (t : TournamentState) (i1 i2 : ℚ),
      ((¬∃ z : ℤ, i1 = (z : ℚ)) ∨ (t.players.length : ℚ) ≤ i1 ∨
       (¬∃ z : ℤ, i2 = (z : ℚ)) ∨ i1 ≤ i2) →
      getMatch t i1 i2 = Except.error TError.invalidArgument) ∧
    (∀ (t : TournamentState) (z1 z2 : ℤ),
      (z1 : ℚ) < (t.players.length : ℚ) → z2 < z1 → z2 < 0 → 0 ≤ z1 →
      getMatch t (z1 : ℚ) (z2 : ℚ) = Except.ok none) ∧
    (∀ (t : TournamentState) (z1 z2 : ℤ),
      (z1 : ℚ) < (t.players.length : ℚ) → z2 < z1 → z1 < 0 →
      getMatch t (z1 : ℚ) (z2 : ℚ) = Except.error TError.typeError) := by
  refine ⟨?_, ?_, ?_, ?_⟩
  · intro players rounds i j hji hiN
    have hfi : ⌊(i : ℚ)⌋ = (i : ℤ) := Int.floor_natCast i
    have hfj : ⌊(j : ℚ)⌋ = (j : ℤ) := Int.floor_natCast j
    unfold getMatch
    rw [if_neg, if_neg, if_neg]
    · rw [hfi, hfj, Int.toNat_natCast, Int.toNat_natCast]
      show Except.ok ((((List.range players.length).map (fun a =>
          (List.range a).map (fun b =>
            mkMatch (players.getD a Factory.throws)
              (players.getD b Factory.throws) rounds)))[i]?).bind
        (fun row => row[j]?)) = _
      simp [List.getElem?_map, List.getElem?_range hiN, List.getElem?_range hji]
    · rw [hfj]
      omega
    · rw [hfi]
      omega
    · intro hC
      rcases hC with h | h | h | h
      · exact h (by rw [hfi]; push_cast; rfl)
      · have hN : (mkTournament players rounds).players.length
            = players.length := rfl
        rw [hN, Nat.cast_le] at h
        omega
      · exact h (by rw [hfj]; push_cast; rfl)
      · rw [Nat.cast_le] at h
        omega
  · intro t i1 i2 h
    have hcond : ¬((⌊i1⌋ : ℚ) = i1) ∨ (t.players.length : ℚ) ≤ i1 ∨
        ¬((⌊i2⌋ : ℚ) = i2) ∨ i1 ≤ i2 := by
      rcases h with h | h | h | h
      · exact Or.inl (fun he => h ⟨⌊i1⌋, he.symm⟩)
      · exact Or.inr (Or.inl h)
      · exact Or.inr (Or.inr (Or.inl (fun he => h ⟨⌊i2⌋, he.symm⟩)))
      · exact Or.inr (Or.inr (Or.inr h))
    unfold getMatch
    rw [if_pos hcond]
  · intro t z1 z2 h1N h21 h2neg h1nn
    have hf1 : ⌊(z1 : ℚ)⌋ = z1 := Int.floor_intCast z1
    have hf2 : ⌊(z2 : ℚ)⌋ = z2 := Int.floor_intCast z2
    unfold getMatch
    rw [if_neg, if_neg, if_pos]
    · rw [hf2]
      exact h2neg
    · rw [hf1]
      omega
    · intro hC
      rcases hC with h | h | h | h
      · exact h (by rw [hf1])
      · exact absurd h (not_le.mpr h1N)
      · exact h (by rw [hf2])
      · have hz : z1 ≤ z2 := by exact_mod_cast h
        omega
  · intro t z1 z2 h1N h21 h1neg
    have hf1 : ⌊(z1 : ℚ)⌋ = z1 := Int.floor_intCast z1
    have hf2 : ⌊(z2 : ℚ)⌋ = z2 := Int.floor_intCast z2
    unfold getMatch
    rw [if_neg, if_pos]
    · rw [hf1]
      exact h1neg
    · intro hC
      rcases hC with h | h | h | h
      · exact h (by rw [hf1])
      · exact absurd h (not_le.mpr h1N)
      · exact h (by rw [hf2])
      · have hz : z1 ≤ z2 := by exact_mod_cast h
        omega

/-- Witness for the amended C9: part 1 at `getMatch(1, 0)` of a 2-player
tournament, which returns the stored match of the pair. -/
theorem C9_getMatch_amended_witness :
    getMatch (mkTournament [Factory.ok goodGuyGreg, Factory.ok scumbagSteve] 3)
        ((1 : ℕ) : ℚ) ((0 : ℕ) : ℚ)
      = Except.ok (some (mkMatch ([Factory.ok goodGuyGreg,
          Factory.ok scumbagSteve].getD 1 Factory.throws)
        ([Factory.ok goodGuyGreg, Factory.ok scumbagSteve].getD 0
          Factory.throws) 3)) :=
  C9_getMatch_amended.1 [Factory.ok goodGuyGreg, Factory.ok scumbagSteve] 3 1 0
    (by decide) (by decide)

end Dilemma
